import Mathlib

/-!
Shallow embedding of the condenser fouling-monitoring analytics core of the
Heat_Exchanger_Dashboard repository, together with theorems settling the
frozen claims about it.

The repository holds two near-duplicate dashboard variants:
  * `src/Frontend/src/Pages/Dashboard.js` (the named variant, with seasonal
    adjustment), embedded as `processedData`, `currentStats`,
    `dashboardOutput`;
  * `src/unnamed/part_000` (the unnamed variant, no seasonal adjustment),
    embedded as `processedDataP0`.

Modelling conventions:
  * JavaScript numbers are modelled as rationals (`ℚ`); timestamps as
    integers (`ℤ`), read as milliseconds on an abstract timeline, so that
    `Date` calendar arithmetic (`setDate`, `setFullYear`) becomes
    subtraction of fixed-length day and year constants;
  * the one place where IEEE-754 special values matter to a claim (division
    by a zero `Uclean`) is modelled separately with an explicit
    `JSNumber` type carrying infinities and the not-a-number value;
  * presentation-only fields (the `name` label produced by
    `toLocaleTimeString`) and UI code are not part of the embedding.
-/

/-- A sensor reading, after the field names of the JSON records the
dashboards consume (`Tcw in` and `Tcw out` become `TcwIn` and `TcwOut`). -/
structure Reading where
  Timestamp : ℤ
  Psat : ℚ
  Tsat : ℚ
  LMTD : ℚ
  TcwIn : ℚ
  TcwOut : ℚ
  Mcw : ℚ
  Cpw : ℚ
  Ufoul : ℚ
  Uclean : ℚ
  Rfoul : ℚ
deriving DecidableEq, Inhabited

/-- Constant `U_CLEAN` of both dashboard files. -/
def U_CLEAN : ℚ := 2500

/-- Constant `AREA` of both dashboard files. -/
def AREA : ℚ := 44370

/-- Constant `ENERGY_RATE` of both dashboard files. -/
def ENERGY_RATE : ℚ := 12 / 100

/-- Constant `OPERATING_HOURS` of both dashboard files. -/
def OPERATING_HOURS : ℚ := 24

/-- Constant `COAL_PRICE` of both dashboard files. -/
def COAL_PRICE : ℚ := 5000

/-- Constant `CO2_FACTOR` of both dashboard files. -/
def CO2_FACTOR : ℚ := 286 / 100

/-- Constant `MAINTENANCE_COST_FACTOR` of both dashboard files. -/
def MAINTENANCE_COST_FACTOR : ℚ := 15 / 100

/-- Constant `EFFICIENCY_LOSS_FACTOR` of both dashboard files. -/
def EFFICIENCY_LOSS_FACTOR : ℚ := 8 / 100

/-- `calculateThermalEfficiency` of both dashboard files:
`(ufoul / uclean) * 100`. -/
def calculateThermalEfficiency (ufoul uclean : ℚ) : ℚ :=
  ufoul / uclean * 100

/-- `calculateEnergyLoss` of both dashboard files:
`(uclean - ufoul) * area * lmtd / 1000`. -/
def calculateEnergyLoss (uclean ufoul area lmtd : ℚ) : ℚ :=
  (uclean - ufoul) * area * lmtd / 1000

/-- `calculateDailyCost` of both dashboard files. -/
def calculateDailyCost (energyLoss energyRate hours : ℚ) : ℚ :=
  energyLoss * energyRate * hours

/-- `calculateCoalConsumption` of both dashboard files:
`(energyLoss * hours * 0.36) / 1000`. -/
def calculateCoalConsumption (energyLoss hours : ℚ) : ℚ :=
  energyLoss * hours * (36 / 100) / 1000

/-- `calculateCO2Emissions` of both dashboard files. -/
def calculateCO2Emissions (coalConsumption : ℚ) : ℚ :=
  coalConsumption * CO2_FACTOR

/-- A JavaScript number as IEEE-754 double semantics distinguishes it:
a finite value (idealised as a rational), the two infinities, or NaN. -/
inductive JSNumber where
  | num (q : ℚ)
  | posInf
  | negInf
  | nan
deriving DecidableEq, Inhabited

/-- JavaScript division of two finite numbers: division by zero yields an
infinity of the numerator sign (and NaN for `0 / 0`), never an error. -/
def jsDivFin (a b : ℚ) : JSNumber :=
  if b = 0 then
    if a = 0 then JSNumber.nan
    else if 0 < a then JSNumber.posInf
    else JSNumber.negInf
  else JSNumber.num (a / b)

/-- JavaScript multiplication of a number by a finite nonzero-signed value. -/
def jsMulFin (x : JSNumber) (c : ℚ) : JSNumber :=
  match x with
  | JSNumber.num q => JSNumber.num (q * c)
  | JSNumber.posInf =>
      if 0 < c then JSNumber.posInf else if c < 0 then JSNumber.negInf else JSNumber.nan
  | JSNumber.negInf =>
      if 0 < c then JSNumber.negInf else if c < 0 then JSNumber.posInf else JSNumber.nan
  | JSNumber.nan => JSNumber.nan

/-- `calculateThermalEfficiency` under JavaScript number semantics:
`(ufoul / uclean) * 100` evaluated with IEEE-754 division, so a zero
`uclean` produces an infinity (or NaN), not an error. -/
def calculateThermalEfficiencyJS (ufoul uclean : ℚ) : JSNumber :=
  jsMulFin (jsDivFin ufoul uclean) 100

/-- The three timeframe selectors of the dashboard dropdown. -/
inductive Timeframe where
  | h24
  | d7
  | d30
deriving DecidableEq, Inhabited

/-- One day in milliseconds: the effect of `setDate(getDate() - 1)` on the
abstract timeline. -/
def dayMs : ℤ := 86400000

/-- One year in milliseconds: the effect of `setFullYear(getFullYear() - 1)`
on the abstract timeline (modelled as a fixed 365-day year). -/
def yearMs : ℤ := 365 * dayMs

/-- The lookback window of each timeframe selector, in milliseconds, from
`filterDate.setDate(now.getDate() - 1 | 7 | 30)` in both dashboard files. -/
def windowMs : Timeframe → ℤ
  | Timeframe.h24 => dayMs
  | Timeframe.d7 => 7 * dayMs
  | Timeframe.d30 => 30 * dayMs

/-- The reference time both dashboards use:
`new Date(data[data.length - 1].Timestamp)` -- the timestamp of the LAST
element of the sequence (zero for an empty list, a case both dashboards
return from before reading it). -/
def refTime (data : List Reading) : ℤ :=
  (Option.map Reading.Timestamp data.getLast?).getD 0

/-- The timeframe filter shared by both dashboard files:
`data.filter(d => new Date(d.Timestamp) > filterDate)` with
`filterDate = refTime - window`. -/
def filteredData (data : List Reading) (tf : Timeframe) : List Reading :=
  data.filter (fun d => decide (refTime data - windowMs tf < d.Timestamp))

/-- Maximum of a list of integers, with 0 for the empty list. -/
def maxInt : List ℤ → ℤ
  | [] => 0
  | t :: ts => ts.foldl max t

/-- Modelled from the spec: the maximum timestamp present anywhere in the
dataset, the reference time the spec prescribes for the timeframe filter
(the code instead reads the last element; the two agree on ascending
input). -/
def maxTimestamp (data : List Reading) : ℤ :=
  maxInt (data.map Reading.Timestamp)

/-- The filter as the spec words it, for comparison with `filteredData`:
the subsequence with timestamp strictly greater than the maximum timestamp
minus the window. -/
def specFilteredData (data : List Reading) (tf : Timeframe) : List Reading :=
  data.filter (fun d => decide (maxTimestamp data - windowMs tf < d.Timestamp))

/-- JavaScript `filteredData.slice(-24)`: the last `min(24, length)`
elements of the list. -/
def sliceLast24 (l : List Reading) : List Reading :=
  l.drop (l.length - 24)

/-- Sum of the indices `0, ..., n-1` as a rational: the value the `sumX`
accumulator of the trend loop reaches over a list of length `n`. -/
def idxSum (n : ℕ) : ℚ :=
  ((List.range n).map (fun (i : ℕ) => (i : ℚ))).sum

/-- Sum of the squared indices `0, ..., n-1` as a rational: the value the
`sumX2` accumulator of the trend loop reaches over a list of length `n`. -/
def idxSqSum (n : ℕ) : ℚ :=
  ((List.range n).map (fun (i : ℕ) => (i : ℚ) * i)).sum

/-- The trend loop accumulator `sumX` over a reading list. -/
def sumX (l : List Reading) : ℚ :=
  idxSum l.length

/-- The trend loop accumulator `sumY`: the sum of the `Rfoul` values. -/
def sumY (l : List Reading) : ℚ :=
  (l.map Reading.Rfoul).sum

/-- The trend loop accumulator `sumXY`: the sum of index times `Rfoul`. -/
def sumXY (l : List Reading) : ℚ :=
  ((List.range l.length).map (fun (i : ℕ) => (i : ℚ) * (l.getD i default).Rfoul)).sum

/-- The trend loop accumulator `sumX2`. -/
def sumX2 (l : List Reading) : ℚ :=
  idxSqSum l.length

/-- The trend slope of `src/Frontend/src/Pages/Dashboard.js` (lines
380-394): sums are accumulated only when `trendCalculationData.length > 1`,
and `slope = n > 1 ? (n*sumXY - sumX*sumY) / (n*sumX2 - sumX*sumX) : 0`. -/
def slopeDashboard (filtered : List Reading) : ℚ :=
  let trendCalculationData := sliceLast24 filtered
  let sums : ℚ × ℚ × ℚ × ℚ :=
    if 1 < trendCalculationData.length then
      (sumX trendCalculationData, sumY trendCalculationData,
        sumXY trendCalculationData, sumX2 trendCalculationData)
    else (0, 0, 0, 0)
  let n : ℚ := trendCalculationData.length
  if 1 < trendCalculationData.length then
    (n * sums.2.2.1 - sums.1 * sums.2.1) / (n * sums.2.2.2 - sums.1 * sums.1)
  else 0

/-- The trend slope of `src/unnamed/part_000` (lines 204-214): sums are
accumulated unconditionally over `trendData = filteredData.slice(-24)` and
`slope = n > 1 ? (n*sumXY - sumX*sumY) / (n*sumX2 - sumX*sumX) : 0`. -/
def slopePart000 (filtered : List Reading) : ℚ :=
  let trendData := sliceLast24 filtered
  let n : ℚ := trendData.length
  if 1 < trendData.length then
    (n * sumXY trendData - sumX trendData * sumY trendData)
      / (n * sumX2 trendData - sumX trendData * sumX trendData)
  else 0

/-- Constant `MIN_RFOUL_THRESHOLD = 0.0000001` of `Dashboard.js`. -/
def MIN_RFOUL_THRESHOLD : ℚ := 1 / 10000000

/-- The `Rfoul` values of the readings in the current 24-hour lookback
window `[now - 24h, now]`, taken from the full dataset (`Dashboard.js`
lines 411-413). -/
def currentPeriodRfouls (data : List Reading) (now : ℤ) : List ℚ :=
  (data.filter (fun d =>
    decide (now - dayMs ≤ d.Timestamp) && decide (d.Timestamp ≤ now))).map Reading.Rfoul

/-- The `Rfoul` values of the readings in the same 24-hour window shifted
back one year, `[now - 24h - 1y, now - 1y]`, taken from the full dataset
(`Dashboard.js` lines 416-418). -/
def lastYearPeriodRfouls (data : List Reading) (now : ℤ) : List ℚ :=
  (data.filter (fun d =>
    decide (now - dayMs - yearMs ≤ d.Timestamp) && decide (d.Timestamp ≤ now - yearMs))).map
    Reading.Rfoul

/-- Arithmetic mean of a list, 0 for the empty list: the ternary
`xs.length > 0 ? xs.reduce(+)/xs.length : 0` of `Dashboard.js`. -/
def avgOrZero (l : List ℚ) : ℚ :=
  if 0 < l.length then l.sum / l.length else 0

/-- The seasonal adjustment factor of `Dashboard.js` (lines 398-437):
1.0 unless BOTH window averages exceed `MIN_RFOUL_THRESHOLD`, in which case
`avgCurrent / avgLastYear` clamped to `[0.8, 1.2]` via
`Math.max(0.8, Math.min(1.2, rawFactor))`. -/
def seasonalAdjustmentFactor (data : List Reading) (now : ℤ) : ℚ :=
  if MIN_RFOUL_THRESHOLD < avgOrZero (lastYearPeriodRfouls data now) ∧
      MIN_RFOUL_THRESHOLD < avgOrZero (currentPeriodRfouls data now) then
    max (8 / 10) (min (12 / 10)
      (avgOrZero (currentPeriodRfouls data now) / avgOrZero (lastYearPeriodRfouls data now)))
  else 1

/-- A point of the processed series: the underlying reading together with
the derived fields both dashboards attach (`Actual Rfoul`,
`Predicted Rfoul`, `efficiency`, `energyLoss`). -/
structure AnnotatedPoint where
  point : Reading
  actualRfoul : ℚ
  predictedRfoul : ℚ
  efficiency : ℚ
  energyLoss : ℚ
deriving DecidableEq, Inhabited

/-- The degenerate-branch mapping of `Dashboard.js` (lines 369-376), used
when the filtered window has fewer than 2 points: the prediction is the raw
current value, with no clamping. -/
def annotateDegenerate (point : Reading) : AnnotatedPoint :=
  { point := point
    actualRfoul := point.Rfoul
    predictedRfoul := point.Rfoul
    efficiency := calculateThermalEfficiency point.Ufoul point.Uclean
    energyLoss := calculateEnergyLoss point.Uclean point.Ufoul AREA point.LMTD }

/-- The per-point mapping of `Dashboard.js` (lines 441-461) at position
`i` of the filtered list `L`: previous actual (or the point itself at
`i = 0`) plus slope, times the seasonal factor, clamped at zero. -/
def annotatePoint (L : List Reading) (slope factor : ℚ) (i : ℕ) : AnnotatedPoint :=
  let point := L.getD i default
  let prevPoint := if i = 0 then point else L.getD (i - 1) point
  let predictedRfoul := max ((prevPoint.Rfoul + slope) * factor) 0
  { point := point
    actualRfoul := point.Rfoul
    predictedRfoul := predictedRfoul
    efficiency := calculateThermalEfficiency point.Ufoul point.Uclean
    energyLoss := calculateEnergyLoss point.Uclean point.Ufoul AREA point.LMTD }

/-- `processedData` of `src/Frontend/src/Pages/Dashboard.js` (lines
354-462): empty guard, timeframe filter, degenerate branch below 2 points,
otherwise trend slope, seasonal factor and the per-point forecast map. -/
def processedData (data : List Reading) (tf : Timeframe) : List AnnotatedPoint :=
  if data.isEmpty then []
  else if (filteredData data tf).length < 2 then
    (filteredData data tf).map annotateDegenerate
  else
    (List.range (filteredData data tf).length).map
      (annotatePoint (filteredData data tf) (slopeDashboard (filteredData data tf))
        (seasonalAdjustmentFactor data (refTime data)))

/-- The heterogeneous return value of `processedData` in
`src/unnamed/part_000`: the early-return branches hand back raw readings,
the main branch annotated points. -/
inductive P0Out where
  | raw (l : List Reading)
  | annotated (l : List AnnotatedPoint)
deriving DecidableEq, Inhabited

/-- The per-point mapping of `src/unnamed/part_000` (lines 216-227):
previous actual (or the point itself at `i = 0`) plus slope, clamped at
zero; no seasonal factor in this variant. -/
def annotatePointP0 (L : List Reading) (slope : ℚ) (i : ℕ) : AnnotatedPoint :=
  let point := L.getD i default
  let prevPoint := if i = 0 then point else L.getD (i - 1) point
  { point := point
    actualRfoul := point.Rfoul
    predictedRfoul := max (prevPoint.Rfoul + slope) 0
    efficiency := calculateThermalEfficiency point.Ufoul point.Uclean
    energyLoss := calculateEnergyLoss point.Uclean point.Ufoul AREA point.LMTD }

/-- `processedData` of `src/unnamed/part_000` (lines 193-228): returns `[]`
for any input of fewer than 2 readings, the raw filtered list when the
filtered window has fewer than 2 points, and otherwise the annotated
series. -/
def processedDataP0 (data : List Reading) (tf : Timeframe) : P0Out :=
  if data.length < 2 then P0Out.raw []
  else if (filteredData data tf).length < 2 then P0Out.raw (filteredData data tf)
  else
    P0Out.annotated
      ((List.range (filteredData data tf).length).map
        (annotatePointP0 (filteredData data tf) (slopePart000 (filteredData data tf))))

/-- The four alert rules of `Dashboard.js` `currentStats` (lines 481-493),
identified by kind; message formatting is presentation and not modelled. -/
inductive Alert where
  | critical
  | performance
  | cost
  | environmental
deriving DecidableEq, Inhabited

/-- The alert list of `Dashboard.js` (lines 481-493), in source order, with
that file's thresholds: `Rfoul > 0.00076`, `efficiency < 75`,
`dailyCost > 5000`, `co2Emissions > 50000`. -/
def computeAlerts (rfoul efficiency dailyCost co2Emissions : ℚ) : List Alert :=
  (if 76 / 100000 < rfoul then [Alert.critical] else []) ++
    (if efficiency < 75 then [Alert.performance] else []) ++
      (if 5000 < dailyCost then [Alert.cost] else []) ++
        (if 50000 < co2Emissions then [Alert.environmental] else [])

/-- The summary `currentStats` of `Dashboard.js` builds from the last
processed point (lines 465-506). -/
structure CurrentStats where
  lastPoint : AnnotatedPoint
  efficiency : ℚ
  energyLoss : ℚ
  dailyCost : ℚ
  coalConsumption : ℚ
  co2Emissions : ℚ
  maintenanceCost : ℚ
  efficiencyLossCost : ℚ
  environmentalCost : ℚ
  totalDailyCost : ℚ
  alerts : List Alert
deriving DecidableEq, Inhabited

/-- `currentStats` of `Dashboard.js` (lines 465-506): `null` (here `none`)
when the processed series is empty, otherwise the cost and alert summary of
the last point. -/
def currentStats (data : List Reading) (tf : Timeframe) : Option CurrentStats :=
  match (processedData data tf).getLast? with
  | none => none
  | some lastPoint =>
      let efficiency := calculateThermalEfficiency lastPoint.point.Ufoul lastPoint.point.Uclean
      let energyLoss :=
        calculateEnergyLoss lastPoint.point.Uclean lastPoint.point.Ufoul AREA lastPoint.point.LMTD
      let dailyCost := calculateDailyCost energyLoss ENERGY_RATE OPERATING_HOURS
      let coalConsumption := calculateCoalConsumption energyLoss OPERATING_HOURS
      let co2Emissions := calculateCO2Emissions coalConsumption
      let maintenanceCost := dailyCost * MAINTENANCE_COST_FACTOR
      let efficiencyLossCost := dailyCost * EFFICIENCY_LOSS_FACTOR
      let environmentalCost := coalConsumption * COAL_PRICE * (2 / 100)
      some
        { lastPoint := lastPoint
          efficiency := efficiency
          energyLoss := energyLoss
          dailyCost := dailyCost
          coalConsumption := coalConsumption
          co2Emissions := co2Emissions
          maintenanceCost := maintenanceCost
          efficiencyLossCost := efficiencyLossCost
          environmentalCost := environmentalCost
          totalDailyCost := dailyCost + maintenanceCost + efficiencyLossCost + environmentalCost
          alerts := computeAlerts lastPoint.point.Rfoul efficiency dailyCost co2Emissions }

/-- The core output contract of the Dashboard.js pipeline: the annotated
series, the latest-point summary, and the alerts raised from it. -/
structure PipelineOutput where
  annotatedSeries : List AnnotatedPoint
  latest : Option CurrentStats
  alerts : List Alert
deriving DecidableEq, Inhabited

/-- The Dashboard.js pipeline output as one value: series, latest summary,
and the alerts of the latest summary (none when there is no data, since the
alert list lives inside `currentStats`). -/
def dashboardOutput (data : List Reading) (tf : Timeframe) : PipelineOutput :=
  let stats := currentStats data tf
  { annotatedSeries := processedData data tf
    latest := stats
    alerts := (Option.map CurrentStats.alerts stats).getD [] }

/-! ## Concrete readings and datasets used by witnesses and counterexamples -/

/-- A representative in-range reading (values after the mock-data shape of
the dashboards), used as the base of the concrete datasets below. -/
def baseReading : Reading :=
  { Timestamp := 0
    Psat := 153 / 1000
    Tsat := 52
    LMTD := 14
    TcwIn := 29
    TcwOut := 45
    Mcw := 22000
    Cpw := 414 / 100
    Ufoul := 2300
    Uclean := 2500
    Rfoul := 25 / 1000000 }

/-- Reading one year before `c1b`, inside the prior-year window, with a
substantial fouling value. -/
def c1a : Reading := { baseReading with Timestamp := 0, Rfoul := 1 }

/-- Latest reading of the `C1data` dataset, with a zero fouling value, so
the current-window average is zero. -/
def c1b : Reading := { baseReading with Timestamp := yearMs, Rfoul := 0 }

/-- Dataset refuting the claim that the seasonal factor clamps whenever
both windows are nonempty and the prior-year average is large enough: the
current-window average is 0, so the code keeps the factor at 1. -/
def C1data : List Reading := [c1a, c1b]

/-- Prior-year reading of the clamp-branch dataset `DW1`. -/
def w1a : Reading := { baseReading with Timestamp := 0, Rfoul := 1 }

/-- Latest reading of `DW1`, with twice the prior-year fouling. -/
def w1b : Reading := { baseReading with Timestamp := yearMs, Rfoul := 2 }

/-- Dataset on which the seasonal clamp branch is active
(`avgCurrent = 2`, `avgLastYear = 1`, raw factor 2 clamped to 1.2). -/
def DW1 : List Reading := [w1a, w1b]

/-- The later reading of the unsorted dataset `D2u`, placed first. -/
def r1u : Reading := { baseReading with Timestamp := 100 * dayMs, Rfoul := 3 / 100000 }

/-- The earlier reading of the unsorted dataset `D2u`, placed last, so the
code reads its timestamp as the reference time. -/
def r2u : Reading := { baseReading with Timestamp := 0, Rfoul := 2 / 100000 }

/-- An unsorted dataset (descending timestamps) on which the code filter
and the maximum-timestamp filter of the spec disagree. -/
def D2u : List Reading := [r1u, r2u]

/-- A single reading with a negative raw fouling resistance. -/
def rNeg : Reading := { baseReading with Timestamp := 0, Rfoul := -1 }

/-- A single in-window reading for the singleton-input behaviors. -/
def rC6 : Reading := { baseReading with Timestamp := 5000 }

/-- First reading of the two-point ascending dataset `D3`. -/
def rA : Reading := { baseReading with Timestamp := 0, Rfoul := 2 / 100000 }

/-- Second reading of `D3`, one hour later. -/
def rB : Reading := { baseReading with Timestamp := 3600000, Rfoul := 3 / 100000 }

/-- A two-point ascending dataset whose points both fall in every
timeframe window. -/
def D3 : List Reading := [rA, rB]

/-- The permutation of `D3` used by the permutation-invariance witness. -/
def D3p : List Reading := [rB, rA]

/-! ## Helper lemmas -/

/-- Recurrence of the index sum. -/
theorem idxSum_succ (n : ℕ) : idxSum (n + 1) = idxSum n + n := by
  unfold idxSum
  rw [List.range_succ, List.map_append, List.sum_append]
  simp

/-- Closed form of the index sum. -/
theorem idxSum_eq (n : ℕ) : 2 * idxSum n = (n : ℚ) ^ 2 - n := by
  induction n with
  | zero => simp [idxSum]
  | succ k ih =>
    rw [idxSum_succ]
    push_cast
    linear_combination ih

/-- Recurrence of the squared-index sum. -/
theorem idxSqSum_succ (n : ℕ) : idxSqSum (n + 1) = idxSqSum n + n * n := by
  unfold idxSqSum
  rw [List.range_succ, List.map_append, List.sum_append]
  simp

/-- Closed form of the squared-index sum. -/
theorem idxSqSum_eq (n : ℕ) :
    6 * idxSqSum n = 2 * (n : ℚ) ^ 3 - 3 * (n : ℚ) ^ 2 + n := by
  induction n with
  | zero => simp [idxSqSum]
  | succ k ih =>
    rw [idxSqSum_succ]
    push_cast
    linear_combination ih

/-- The regression denominator `n * sumX2 - sumX^2` over the index sequence
`0, ..., n-1` equals `(n^4 - n^2) / 12` and is strictly positive for
`n ≥ 2`: the division in the trend slope can never be degenerate. -/
theorem trendDen_pos (n : ℕ) (h : 2 ≤ n) :
    0 < (n : ℚ) * idxSqSum n - idxSum n * idxSum n := by
  have hS := idxSum_eq n
  have hQ := idxSqSum_eq n
  have hn : (2 : ℚ) ≤ (n : ℚ) := by exact_mod_cast h
  have key : 12 * ((n : ℚ) * idxSqSum n - idxSum n * idxSum n)
      = (n : ℚ) ^ 4 - (n : ℚ) ^ 2 := by
    linear_combination (2 * (n : ℚ)) * hQ
      - 3 * (2 * idxSum n + (n : ℚ) ^ 2 - (n : ℚ)) * hS
  nlinarith [key, hn, sq_nonneg ((n : ℚ) - 2), sq_nonneg ((n : ℚ) + 1)]

/-- Lookup in a mapped range: position `i < n` holds `f i`. -/
theorem getD_range_map {α : Type} (f : ℕ → α) (n i : ℕ) (h : i < n) (d : α) :
    ((List.range n).map f).getD i d = f i := by
  rw [List.getD_eq_getElem?_getD, List.getElem?_map, List.getElem?_range h]
  rfl

/-- `getD` inside the list does not depend on the fallback value. -/
theorem getD_fallback_irrel {α : Type} (l : List α) (i : ℕ) (h : i < l.length)
    (d1 d2 : α) : l.getD i d1 = l.getD i d2 := by
  rw [List.getD_eq_getElem?_getD, List.getD_eq_getElem?_getD,
    List.getElem?_eq_getElem h]
  rfl

/-- The reference time of a nonempty list is the timestamp of one of its
readings (its last one). -/
theorem refTime_exists (l : List Reading) (h : l ≠ []) :
    ∃ r ∈ l, refTime l = r.Timestamp := by
  refine ⟨l.getLast h, List.getLast_mem h, ?_⟩
  simp [refTime, List.getLast?_eq_getLast l h]

/-- On a list that ascends by timestamp, every timestamp is at most the
reference time (the last element's timestamp). -/
theorem timestamp_le_refTime (l : List Reading)
    (hp : l.Pairwise (fun a b => a.Timestamp ≤ b.Timestamp)) :
    ∀ r ∈ l, r.Timestamp ≤ refTime l := by
  induction l with
  | nil => intro r hr; cases hr
  | cons d ds ih =>
    intro r hr
    rcases List.pairwise_cons.mp hp with ⟨hd, hp2⟩
    rcases List.mem_cons.mp hr with rfl | hmem
    · cases ds with
      | nil => simp [refTime]
      | cons e es =>
        have h2 : refTime (r :: e :: es) = refTime (e :: es) := by
          simp [refTime, List.getLast?_cons_cons]
        rw [h2]
        obtain ⟨s, hs, hrt⟩ := refTime_exists (e :: es) (by simp)
        rw [hrt]
        exact hd s hs
    · cases ds with
      | nil => cases hmem
      | cons e es =>
        have h2 : refTime (d :: e :: es) = refTime (e :: es) := by
          simp [refTime, List.getLast?_cons_cons]
        rw [h2]
        exact ih hp2 r hmem

/-- The seed of a maximum fold is at most the fold. -/
theorem le_foldl_max (l : List ℤ) (a : ℤ) : a ≤ l.foldl max a := by
  induction l generalizing a with
  | nil => simp
  | cons t ts ih =>
    rw [List.foldl_cons]
    exact le_trans (le_max_left a t) (ih (max a t))

/-- Every member of the list is at most the maximum fold. -/
theorem mem_le_foldl_max (l : List ℤ) : ∀ (a x : ℤ), x ∈ l → x ≤ l.foldl max a := by
  induction l with
  | nil => intro a x hx; cases hx
  | cons t ts ih =>
    intro a x hx
    rw [List.foldl_cons]
    rcases List.mem_cons.mp hx with rfl | h
    · exact le_trans (le_max_right a x) (le_foldl_max ts (max a x))
    · exact ih (max a t) x h

/-- The maximum fold is the seed or a member of the list. -/
theorem foldl_max_cases (l : List ℤ) : ∀ a : ℤ, l.foldl max a = a ∨ l.foldl max a ∈ l := by
  induction l with
  | nil => intro a; left; rfl
  | cons t ts ih =>
    intro a
    rw [List.foldl_cons]
    rcases ih (max a t) with h | h
    · rw [h]
      rcases max_choice a t with h1 | h1
      · left; exact h1
      · right; rw [h1]; exact List.mem_cons_self t ts
    · right; exact List.mem_cons_of_mem t h

/-- Every member of a list of integers is at most its `maxInt`. -/
theorem le_maxInt (l : List ℤ) (x : ℤ) (hx : x ∈ l) : x ≤ maxInt l := by
  cases l with
  | nil => cases hx
  | cons t ts =>
    rcases List.mem_cons.mp hx with rfl | h
    · exact le_foldl_max ts x
    · exact mem_le_foldl_max ts t x h

/-- `maxInt` of a nonempty list is a member of the list. -/
theorem maxInt_mem (l : List ℤ) (h : l ≠ []) : maxInt l ∈ l := by
  cases l with
  | nil => exact absurd rfl h
  | cons t ts =>
    rcases foldl_max_cases ts t with h1 | h1
    · show ts.foldl max t ∈ t :: ts
      rw [h1]
      exact List.mem_cons_self t ts
    · exact List.mem_cons_of_mem t h1

/-- On a nonempty list that ascends by timestamp, the code's reference time
(the last element's timestamp) is the maximum timestamp of the dataset. -/
theorem refTime_eq_maxTimestamp (l : List Reading)
    (hs : l.Pairwise (fun a b => a.Timestamp ≤ b.Timestamp)) (h : l ≠ []) :
    refTime l = maxTimestamp l := by
  obtain ⟨r, hr, hrt⟩ := refTime_exists l h
  apply le_antisymm
  · rw [hrt]
    exact le_maxInt _ _ (List.mem_map_of_mem Reading.Timestamp hr)
  · have hm : maxTimestamp l ∈ l.map Reading.Timestamp := by
      apply maxInt_mem
      simpa using h
    obtain ⟨s, hs2, hst⟩ := List.mem_map.mp hm
    rw [← hst]
    exact timestamp_le_refTime l hs s hs2

/-- Every point of the Dashboard.js processed series carries derived
metrics that are functions of its own reading alone. -/
theorem processedData_metrics (data : List Reading) (tf : Timeframe) :
    ∀ p ∈ processedData data tf,
      p.actualRfoul = p.point.Rfoul ∧
      p.efficiency = calculateThermalEfficiency p.point.Ufoul p.point.Uclean ∧
      p.energyLoss = calculateEnergyLoss p.point.Uclean p.point.Ufoul AREA p.point.LMTD := by
  intro p hp
  unfold processedData at hp
  split at hp
  · cases hp
  · split at hp
    · obtain ⟨r, _, rfl⟩ := List.mem_map.mp hp
      exact ⟨rfl, rfl, rfl⟩
    · obtain ⟨i, _, rfl⟩ := List.mem_map.mp hp
      exact ⟨rfl, rfl, rfl⟩

/-- The average of the empty window is zero. -/
theorem avgOrZero_nil : avgOrZero ([] : List ℚ) = 0 := rfl

/-- The current 24-hour window of `C1data` at its reference time holds
exactly the zero fouling value of `c1b`. -/
theorem currentPeriod_C1data : currentPeriodRfouls C1data yearMs = [(0 : ℚ)] := by
  unfold currentPeriodRfouls C1data
  rw [List.filter_cons_of_neg (by decide), List.filter_cons_of_pos (by decide),
    List.filter_nil]
  rfl

/-- The prior-year window of `C1data` holds exactly the unit fouling value
of `c1a`. -/
theorem lastYearPeriod_C1data : lastYearPeriodRfouls C1data yearMs = [(1 : ℚ)] := by
  unfold lastYearPeriodRfouls C1data
  rw [List.filter_cons_of_pos (by decide), List.filter_cons_of_neg (by decide),
    List.filter_nil]
  rfl

/-- The current 24-hour window of `DW1` holds exactly the fouling value 2. -/
theorem currentPeriod_DW1 : currentPeriodRfouls DW1 yearMs = [(2 : ℚ)] := by
  unfold currentPeriodRfouls DW1
  rw [List.filter_cons_of_neg (by decide), List.filter_cons_of_pos (by decide),
    List.filter_nil]
  rfl

/-- The prior-year window of `DW1` holds exactly the fouling value 1. -/
theorem lastYearPeriod_DW1 : lastYearPeriodRfouls DW1 yearMs = [(1 : ℚ)] := by
  unfold lastYearPeriodRfouls DW1
  rw [List.filter_cons_of_pos (by decide), List.filter_cons_of_neg (by decide),
    List.filter_nil]
  rfl

/-! ## Claim theorems -/

/-- Claim C1, as amended: the seasonal adjustment factor always lies in
[0.8, 1.2]; it is 1.0 whenever the current window is empty, the prior-year
window is empty, or the prior-year average is below the 1e-7 threshold;
and it equals avgCurrent/avgLastYear clamped to [0.8, 1.2] only when BOTH
averages strictly exceed the threshold (the code also gates on the current
average, which the claim omitted). -/
theorem seasonal_factor_bounds_and_cases (data : List Reading) (now : ℤ) :
    (8 / 10 ≤ seasonalAdjustmentFactor data now ∧
      seasonalAdjustmentFactor data now ≤ 12 / 10) ∧
    (currentPeriodRfouls data now = [] → seasonalAdjustmentFactor data now = 1) ∧
    (lastYearPeriodRfouls data now = [] → seasonalAdjustmentFactor data now = 1) ∧
    (avgOrZero (lastYearPeriodRfouls data now) < MIN_RFOUL_THRESHOLD →
      seasonalAdjustmentFactor data now = 1) ∧
    (MIN_RFOUL_THRESHOLD < avgOrZero (lastYearPeriodRfouls data now) →
      MIN_RFOUL_THRESHOLD < avgOrZero (currentPeriodRfouls data now) →
      seasonalAdjustmentFactor data now =
        max (8 / 10) (min (12 / 10)
          (avgOrZero (currentPeriodRfouls data now) /
            avgOrZero (lastYearPeriodRfouls data now)))) := by
  refine ⟨?_, ?_, ?_, ?_, ?_⟩
  · unfold seasonalAdjustmentFactor
    by_cases hc : MIN_RFOUL_THRESHOLD < avgOrZero (lastYearPeriodRfouls data now) ∧
        MIN_RFOUL_THRESHOLD < avgOrZero (currentPeriodRfouls data now)
    · rw [if_pos hc]
      exact ⟨le_max_left _ _, max_le (by norm_num) (min_le_left _ _)⟩
    · rw [if_neg hc]
      norm_num
  · intro h
    have hc : ¬ (MIN_RFOUL_THRESHOLD < avgOrZero (lastYearPeriodRfouls data now) ∧
        MIN_RFOUL_THRESHOLD < avgOrZero (currentPeriodRfouls data now)) := by
      rintro ⟨-, hcon⟩
      rw [h, avgOrZero_nil] at hcon
      norm_num [MIN_RFOUL_THRESHOLD] at hcon
    unfold seasonalAdjustmentFactor
    rw [if_neg hc]
  · intro h
    have hc : ¬ (MIN_RFOUL_THRESHOLD < avgOrZero (lastYearPeriodRfouls data now) ∧
        MIN_RFOUL_THRESHOLD < avgOrZero (currentPeriodRfouls data now)) := by
      rintro ⟨hcon, -⟩
      rw [h, avgOrZero_nil] at hcon
      norm_num [MIN_RFOUL_THRESHOLD] at hcon
    unfold seasonalAdjustmentFactor
    rw [if_neg hc]
  · intro h
    have hc : ¬ (MIN_RFOUL_THRESHOLD < avgOrZero (lastYearPeriodRfouls data now) ∧
        MIN_RFOUL_THRESHOLD < avgOrZero (currentPeriodRfouls data now)) := by
      rintro ⟨hcon, -⟩
      exact absurd hcon (not_lt.mpr (le_of_lt h))
    unfold seasonalAdjustmentFactor
    rw [if_neg hc]
  · intro h1 h2
    unfold seasonalAdjustmentFactor
    rw [if_pos ⟨h1, h2⟩]

/-- Claim C1, counterexample to the claim as stated: on `C1data` at its
reference time, both averaging windows are nonempty and the prior-year
average (1) is far above 1e-7, yet the factor is 1.0, not the clamped ratio
0.8 the claim prescribes -- the code additionally requires the current
average to exceed the threshold. This also refutes the claimed "equals 1.0
exactly when" characterisation. -/
theorem seasonal_factor_claim_cex :
    refTime C1data = yearMs ∧
    currentPeriodRfouls C1data yearMs ≠ [] ∧
    lastYearPeriodRfouls C1data yearMs ≠ [] ∧
    ¬ avgOrZero (lastYearPeriodRfouls C1data yearMs) < MIN_RFOUL_THRESHOLD ∧
    max (8 / 10) (min (12 / 10)
      (avgOrZero (currentPeriodRfouls C1data yearMs) /
        avgOrZero (lastYearPeriodRfouls C1data yearMs))) = 8 / 10 ∧
    seasonalAdjustmentFactor C1data yearMs = 1 ∧
    (1 : ℚ) ≠ 8 / 10 := by
  have h0 : avgOrZero [(0 : ℚ)] = 0 := by norm_num [avgOrZero]
  have h1 : avgOrZero [(1 : ℚ)] = 1 := by norm_num [avgOrZero]
  refine ⟨rfl, ?_, ?_, ?_, ?_, ?_, by norm_num⟩
  · rw [currentPeriod_C1data]
    simp
  · rw [lastYearPeriod_C1data]
    simp
  · rw [lastYearPeriod_C1data, h1]
    norm_num [MIN_RFOUL_THRESHOLD]
  · rw [currentPeriod_C1data, lastYearPeriod_C1data, h0, h1]
    rw [show (0 : ℚ) / 1 = 0 by norm_num]
    rw [min_eq_right (by norm_num : (0 : ℚ) ≤ 12 / 10)]
    rw [max_eq_left (by norm_num : (0 : ℚ) ≤ 8 / 10)]
  · have hc : ¬ (MIN_RFOUL_THRESHOLD < avgOrZero (lastYearPeriodRfouls C1data yearMs) ∧
        MIN_RFOUL_THRESHOLD < avgOrZero (currentPeriodRfouls C1data yearMs)) := by
      rintro ⟨-, hcon⟩
      rw [currentPeriod_C1data, h0] at hcon
      norm_num [MIN_RFOUL_THRESHOLD] at hcon
    unfold seasonalAdjustmentFactor
    rw [if_neg hc]

/-- Claim C1, witness: on `DW1` both averages exceed the threshold and the
clamp branch of the theorem applies, giving the clamped ratio. -/
theorem seasonal_factor_witness :
    seasonalAdjustmentFactor DW1 yearMs =
      max (8 / 10) (min (12 / 10)
        (avgOrZero (currentPeriodRfouls DW1 yearMs) /
          avgOrZero (lastYearPeriodRfouls DW1 yearMs))) := by
  apply (seasonal_factor_bounds_and_cases DW1 yearMs).2.2.2.2
  · rw [lastYearPeriod_DW1]
    norm_num [avgOrZero, MIN_RFOUL_THRESHOLD]
  · rw [currentPeriod_DW1]
    norm_num [avgOrZero, MIN_RFOUL_THRESHOLD]

/-- Claim C7: with `Uclean = 0` the metric calculation does NOT fail loudly
-- under JavaScript number semantics `calculateThermalEfficiency(2300, 0)`
silently evaluates to positive Infinity, the behavior the spec forbids. -/
theorem thermalEfficiency_zero_uclean_silent :
    calculateThermalEfficiencyJS 2300 0 = JSNumber.posInf := by decide

/-- Claim C9: for the same dataset (hence the same reference time), the
readings selected by the 24-hour filter are among those selected by the
7-day filter, which are among those selected by the 30-day filter. -/
theorem timeframe_window_containment (data : List Reading) :
    (∀ r ∈ filteredData data Timeframe.h24, r ∈ filteredData data Timeframe.d7) ∧
    (∀ r ∈ filteredData data Timeframe.d7, r ∈ filteredData data Timeframe.d30) := by
  have hday : (0 : ℤ) < dayMs := by decide
  constructor
  · intro r hr
    rw [filteredData, List.mem_filter] at hr ⊢
    refine ⟨hr.1, ?_⟩
    have h1 : refTime data - windowMs Timeframe.h24 < r.Timestamp :=
      of_decide_eq_true hr.2
    apply decide_eq_true
    show refTime data - windowMs Timeframe.d7 < r.Timestamp
    simp only [windowMs] at h1 ⊢
    linarith
  · intro r hr
    rw [filteredData, List.mem_filter] at hr ⊢
    refine ⟨hr.1, ?_⟩
    have h1 : refTime data - windowMs Timeframe.d7 < r.Timestamp :=
      of_decide_eq_true hr.2
    apply decide_eq_true
    show refTime data - windowMs Timeframe.d30 < r.Timestamp
    simp only [windowMs] at h1 ⊢
    linarith

/-- The 24-hour filter keeps both readings of the ascending dataset `D3`. -/
theorem filtered_D3_h24 : filteredData D3 Timeframe.h24 = [rA, rB] := by
  unfold filteredData D3
  rw [List.filter_cons_of_pos (by decide), List.filter_cons_of_pos (by decide),
    List.filter_nil]

/-- Claim C9, witness: the earliest reading of `D3` reaches the 7-day
selection through the containment theorem applied to its 24-hour
membership. -/
theorem timeframe_window_containment_witness :
    rA ∈ filteredData D3 Timeframe.d7 :=
  (timeframe_window_containment D3).1 rA
    (by rw [filtered_D3_h24]; exact List.mem_cons_self rA [rB])

/-- Claim C10: the trend-slope computations of the two dashboard variants
are extensionally equal on every filtered reading sequence. -/
theorem slope_variants_agree (filtered : List Reading) :
    slopeDashboard filtered = slopePart000 filtered := by
  unfold slopeDashboard slopePart000
  by_cases h : 1 < (sliceLast24 filtered).length <;> simp [h]

/-- A dataset whose filtered window holds at least two readings is itself
nonempty. -/
theorem data_not_empty_of_two_filtered (data : List Reading) (tf : Timeframe)
    (h2 : 2 ≤ (filteredData data tf).length) : data.isEmpty = false := by
  cases data with
  | nil => simp [filteredData] at h2
  | cons a l => rfl

/-- When the filtered window has at least two readings, the processed
series has one point per filtered reading. -/
theorem processedData_length (data : List Reading) (tf : Timeframe)
    (h2 : 2 ≤ (filteredData data tf).length) :
    (processedData data tf).length = (filteredData data tf).length := by
  have hne := data_not_empty_of_two_filtered data tf h2
  unfold processedData
  rw [hne, if_neg Bool.false_ne_true, if_neg (Nat.not_lt.mpr h2)]
  rw [List.length_map, List.length_range]

/-- When the filtered window has at least two readings, position `i` of
the processed series is the annotated point at position `i`. -/
theorem processedData_getD (data : List Reading) (tf : Timeframe)
    (h2 : 2 ≤ (filteredData data tf).length) (i : ℕ)
    (hi : i < (filteredData data tf).length) :
    (processedData data tf).getD i default =
      annotatePoint (filteredData data tf) (slopeDashboard (filteredData data tf))
        (seasonalAdjustmentFactor data (refTime data)) i := by
  have hne := data_not_empty_of_two_filtered data tf h2
  unfold processedData
  rw [hne, if_neg Bool.false_ne_true, if_neg (Nat.not_lt.mpr h2)]
  exact getD_range_map _ _ _ hi _

/-- A singleton input is entirely within every timeframe window (the
reference time is its own timestamp), so the Dashboard.js pipeline returns
its degenerate annotation. -/
theorem processedData_singleton (r : Reading) (tf : Timeframe) :
    processedData [r] tf = [annotateDegenerate r] := by
  have hw : (0 : ℤ) < windowMs tf := by cases tf <;> decide
  have hL : filteredData [r] tf = [r] := by
    unfold filteredData
    rw [List.filter_cons_of_pos ?_, List.filter_nil]
    apply decide_eq_true
    show refTime [r] - windowMs tf < r.Timestamp
    have hrt : refTime [r] = r.Timestamp := rfl
    rw [hrt]
    exact sub_lt_self _ hw
  unfold processedData
  rw [hL]
  simp

/-- The 24-hour filter keeps both readings of the permuted dataset `D3p`. -/
theorem filtered_D3p_h24 : filteredData D3p Timeframe.h24 = [rB, rA] := by
  unfold filteredData D3p
  rw [List.filter_cons_of_pos (by decide), List.filter_cons_of_pos (by decide),
    List.filter_nil]

/-- Claim C2, as amended: the timeframe filter is a subsequence of the
input, and on input that ascends by timestamp (where the last element
carries the maximum timestamp) it returns exactly the subsequence with
timestamp strictly greater than the maximum timestamp minus the window.
On unsorted input the code uses the LAST element's timestamp, not the
maximum (see the counterexample). -/
theorem timeframe_filter_sorted_max (data : List Reading) (tf : Timeframe)
    (hs : data.Pairwise (fun a b => a.Timestamp ≤ b.Timestamp)) (hne : data ≠ []) :
    List.Sublist (filteredData data tf) data ∧
    filteredData data tf = specFilteredData data tf := by
  constructor
  · exact List.filter_sublist data
  · unfold filteredData specFilteredData
    rw [refTime_eq_maxTimestamp data hs hne]

/-- Claim C2, witness: on the ascending dataset `D3` the code filter and
the maximum-timestamp filter coincide. -/
theorem timeframe_filter_sorted_max_witness :
    filteredData D3 Timeframe.h24 = specFilteredData D3 Timeframe.h24 := by
  have hpair : D3.Pairwise (fun a b => a.Timestamp ≤ b.Timestamp) := by
    unfold D3
    refine List.Pairwise.cons ?_ (List.pairwise_singleton _ rB)
    intro b hb
    rw [List.mem_singleton] at hb
    subst hb
    decide
  have hne : D3 ≠ [] := by
    unfold D3
    exact List.cons_ne_nil rA [rB]
  exact (timeframe_filter_sorted_max D3 Timeframe.h24 hpair hne).2

/-- Claim C2, counterexample to the claim as stated: on the unsorted
dataset `D2u` the code filter keeps `r2u`, whose timestamp is NOT within
the window below the maximum timestamp -- the code's reference time is the
last element (timestamp 0), not the dataset maximum (day 100). -/
theorem timeframe_filter_last_not_max_cex :
    filteredData D2u Timeframe.h24 = [r1u, r2u] ∧
    specFilteredData D2u Timeframe.h24 = [r1u] ∧
    r2u.Timestamp ≤ maxTimestamp D2u - windowMs Timeframe.h24 ∧
    filteredData D2u Timeframe.h24 ≠ specFilteredData D2u Timeframe.h24 := by
  have h1 : filteredData D2u Timeframe.h24 = [r1u, r2u] := by
    unfold filteredData D2u
    rw [List.filter_cons_of_pos (by decide), List.filter_cons_of_pos (by decide),
      List.filter_nil]
  have h2 : specFilteredData D2u Timeframe.h24 = [r1u] := by
    unfold specFilteredData D2u
    rw [List.filter_cons_of_pos (by decide), List.filter_cons_of_neg (by decide),
      List.filter_nil]
  refine ⟨h1, h2, by decide, ?_⟩
  rw [h1, h2]
  simp

/-- Claim C3, as amended: every point of the processed series has a
non-negative predicted fouling resistance whenever the filtered window has
at least 2 points (the clamp `max(..., 0)` applies); in the degenerate case
of fewer than 2 points the prediction is the raw actual value, which the
code does NOT clamp (see the counterexample). -/
theorem predicted_nonneg_cases (data : List Reading) (tf : Timeframe) :
    (2 ≤ (filteredData data tf).length →
      ∀ p ∈ processedData data tf, 0 ≤ p.predictedRfoul) ∧
    ((filteredData data tf).length < 2 →
      ∀ p ∈ processedData data tf, p.predictedRfoul = p.actualRfoul) := by
  constructor
  · intro h2 p hp
    have hne := data_not_empty_of_two_filtered data tf h2
    unfold processedData at hp
    rw [hne, if_neg Bool.false_ne_true, if_neg (Nat.not_lt.mpr h2)] at hp
    obtain ⟨i, _, rfl⟩ := List.mem_map.mp hp
    exact le_max_right _ _
  · intro hlt p hp
    unfold processedData at hp
    by_cases hne : data.isEmpty = true
    · rw [if_pos hne] at hp
      cases hp
    · rw [if_neg hne, if_pos hlt] at hp
      obtain ⟨r, _, rfl⟩ := List.mem_map.mp hp
      rfl

/-- Claim C3, witness: on the two-point window `D3` the first processed
point has a non-negative prediction. -/
theorem predicted_nonneg_witness :
    0 ≤ ((processedData D3 Timeframe.h24).getD 0 default).predictedRfoul := by
  have hlen : 0 < (processedData D3 Timeframe.h24).length := by decide
  have hmem : (processedData D3 Timeframe.h24).getD 0 default ∈
      processedData D3 Timeframe.h24 := by
    rw [List.getD_eq_getElem?_getD, List.getElem?_eq_getElem hlen]
    exact List.getElem_mem hlen
  exact (predicted_nonneg_cases D3 Timeframe.h24).1 (by decide) _ hmem

/-- Claim C3, counterexample to the claim as stated: a single reading with
a negative raw fouling resistance passes through the degenerate branch
unclamped, so the pipeline emits a negative predicted value. -/
theorem predicted_negative_degenerate_cex :
    processedData [rNeg] Timeframe.h24 = [annotateDegenerate rNeg] ∧
    (annotateDegenerate rNeg).predictedRfoul = rNeg.Rfoul ∧
    (annotateDegenerate rNeg).predictedRfoul < 0 := by
  refine ⟨processedData_singleton rNeg Timeframe.h24, rfl, ?_⟩
  show (-1 : ℚ) < 0
  norm_num

/-- Claim C4: the trend estimator works on the most recent `min(24, N)`
points of the filtered window; it returns exactly 0 whenever that window
has at most one point; and for 2 or more points it computes the
ordinary-least-squares slope `(n*sumXY - sumX*sumY) / (n*sumX2 - sumX^2)`
whose denominator is strictly positive -- so the division can never be
degenerate and no non-finite value can arise, making the required
non-finite fallback vacuously satisfied. -/
theorem trend_slope_spec (L : List Reading) :
    (sliceLast24 L).length = min 24 L.length ∧
    ((sliceLast24 L).length ≤ 1 → slopeDashboard L = 0) ∧
    (2 ≤ (sliceLast24 L).length →
      slopeDashboard L =
        (((sliceLast24 L).length : ℚ) * sumXY (sliceLast24 L)
            - sumX (sliceLast24 L) * sumY (sliceLast24 L))
          / (((sliceLast24 L).length : ℚ) * sumX2 (sliceLast24 L)
            - sumX (sliceLast24 L) * sumX (sliceLast24 L)) ∧
      0 < ((sliceLast24 L).length : ℚ) * sumX2 (sliceLast24 L)
            - sumX (sliceLast24 L) * sumX (sliceLast24 L)) := by
  refine ⟨?_, ?_, ?_⟩
  · unfold sliceLast24
    rw [List.length_drop]
    omega
  · intro h1
    simp only [slopeDashboard]
    rw [if_neg (by omega : ¬ 1 < (sliceLast24 L).length)]
  · intro h2
    have h1 : 1 < (sliceLast24 L).length := by omega
    constructor
    · simp only [slopeDashboard]
      rw [if_pos h1, if_pos h1]
    · exact trendDen_pos (sliceLast24 L).length h2

/-- Claim C4, witness: the two-point filtered window of `D3` satisfies the
OLS branch, with a strictly positive denominator. -/
theorem trend_slope_spec_witness :
    0 < ((sliceLast24 (filteredData D3 Timeframe.h24)).length : ℚ) *
        sumX2 (sliceLast24 (filteredData D3 Timeframe.h24))
      - sumX (sliceLast24 (filteredData D3 Timeframe.h24)) *
        sumX (sliceLast24 (filteredData D3 Timeframe.h24)) :=
  ((trend_slope_spec (filteredData D3 Timeframe.h24)).2.2 (by decide)).2

/-- Claim C5: when the filtered window has at least 2 points, the
processed series has one point per filtered reading and the point at each
index `i` has predicted value
`max(((actual[i-1] if i > 0 else actual[i]) + slope) * seasonalFactor, 0)`,
with the single per-run slope and seasonal factor. -/
theorem forecast_formula (data : List Reading) (tf : Timeframe) (i : ℕ)
    (h2 : 2 ≤ (filteredData data tf).length)
    (hi : i < (filteredData data tf).length) :
    (processedData data tf).length = (filteredData data tf).length ∧
    ((processedData data tf).getD i default).predictedRfoul =
      max (((if i = 0 then (filteredData data tf).getD 0 default
            else (filteredData data tf).getD (i - 1) default).Rfoul
          + slopeDashboard (filteredData data tf))
        * seasonalAdjustmentFactor data (refTime data)) 0 := by
  refine ⟨processedData_length data tf h2, ?_⟩
  rw [processedData_getD data tf h2 i hi]
  by_cases h0 : i = 0
  · subst h0
    rfl
  · have hi1 : i - 1 < (filteredData data tf).length := by omega
    simp only [annotatePoint]
    rw [if_neg h0, if_neg h0]
    rw [getD_fallback_irrel (filteredData data tf) (i - 1) hi1
      ((filteredData data tf).getD i default) default]

/-- Claim C5, witness: the second point of the processed series of `D3`
satisfies the per-point forecast formula. -/
theorem forecast_formula_witness :
    (processedData D3 Timeframe.h24).length = (filteredData D3 Timeframe.h24).length ∧
    ((processedData D3 Timeframe.h24).getD 1 default).predictedRfoul =
      max (((if (1 : ℕ) = 0 then (filteredData D3 Timeframe.h24).getD 0 default
            else (filteredData D3 Timeframe.h24).getD (1 - 1) default).Rfoul
          + slopeDashboard (filteredData D3 Timeframe.h24))
        * seasonalAdjustmentFactor D3 (refTime D3)) 0 :=
  forecast_formula D3 Timeframe.h24 1 (by decide) (by decide)

/-- Claim C6, as amended: the empty input yields the neutral output
(empty series, no latest summary, no alerts) in the Dashboard.js pipeline
and an empty result in the part_000 pipeline; a single in-window reading is
kept (annotated) by the Dashboard.js pipeline, while the part_000 variant
returns an empty result for ANY input of fewer than two readings (see the
counterexample). -/
theorem empty_and_singleton_pipeline (tf : Timeframe) (r : Reading) :
    dashboardOutput [] tf =
      { annotatedSeries := [], latest := none, alerts := [] } ∧
    processedDataP0 [] tf = P0Out.raw [] ∧
    processedData [r] tf = [annotateDegenerate r] ∧
    processedDataP0 [r] tf = P0Out.raw [] :=
  ⟨rfl, rfl, processedData_singleton r tf, rfl⟩

/-- Claim C6, counterexample to the claim as stated: the reading `rC6` is
within every window of its singleton dataset, yet the part_000 pipeline
returns the empty result for it rather than the element itself, because it
bails out on any input of fewer than two readings. -/
theorem singleton_part000_cex :
    filteredData [rC6] Timeframe.h24 = [rC6] ∧
    processedDataP0 [rC6] Timeframe.h24 = P0Out.raw [] ∧
    P0Out.raw ([] : List Reading) ≠ P0Out.raw [rC6] := by
  refine ⟨?_, rfl, by simp⟩
  unfold filteredData
  rw [List.filter_cons_of_pos (by decide), List.filter_nil]

/-- Claim C8: the per-record derived metrics the pipeline attaches
(efficiency, energy loss, actual fouling resistance) are functions of the
record alone, hence unchanged under any permutation of the input; and the
thermal efficiency is linear in `Ufoul`. -/
theorem metrics_permutation_and_linear :
    (∀ (data dataP : List Reading) (tf tfP : Timeframe), data.Perm dataP →
      ∀ p ∈ processedData data tf, ∀ q ∈ processedData dataP tfP,
        p.point = q.point →
          p.efficiency = q.efficiency ∧ p.energyLoss = q.energyLoss ∧
            p.actualRfoul = q.actualRfoul) ∧
    (∀ a b u v w : ℚ,
      calculateThermalEfficiency (a * u + b * v) w =
        a * calculateThermalEfficiency u w + b * calculateThermalEfficiency v w) := by
  constructor
  · intro data dataP tf tfP _ p hp q hq hpq
    obtain ⟨hp1, hp2, hp3⟩ := processedData_metrics data tf p hp
    obtain ⟨hq1, hq2, hq3⟩ := processedData_metrics dataP tfP q hq
    rw [hp1, hp2, hp3, hq1, hq2, hq3, hpq]
    exact ⟨rfl, rfl, rfl⟩
  · intro a b u v w
    unfold calculateThermalEfficiency
    ring

/-- Claim C8, witness: `D3p` permutes `D3`; the annotated point of the
reading `rA` carries the same derived metrics in both runs. -/
theorem metrics_permutation_witness :
    ((processedData D3 Timeframe.h24).getD 0 default).efficiency =
      ((processedData D3p Timeframe.h24).getD 1 default).efficiency ∧
    ((processedData D3 Timeframe.h24).getD 0 default).energyLoss =
      ((processedData D3p Timeframe.h24).getD 1 default).energyLoss ∧
    ((processedData D3 Timeframe.h24).getD 0 default).actualRfoul =
      ((processedData D3p Timeframe.h24).getD 1 default).actualRfoul := by
  have hperm : D3.Perm D3p := by
    unfold D3 D3p
    exact List.Perm.swap rB rA []
  have hlen1 : 0 < (processedData D3 Timeframe.h24).length := by decide
  have hlen2 : 1 < (processedData D3p Timeframe.h24).length := by decide
  have hmem1 : (processedData D3 Timeframe.h24).getD 0 default ∈
      processedData D3 Timeframe.h24 := by
    rw [List.getD_eq_getElem?_getD, List.getElem?_eq_getElem hlen1]
    exact List.getElem_mem hlen1
  have hmem2 : (processedData D3p Timeframe.h24).getD 1 default ∈
      processedData D3p Timeframe.h24 := by
    rw [List.getD_eq_getElem?_getD, List.getElem?_eq_getElem hlen2]
    exact List.getElem_mem hlen2
  have hpoint : ((processedData D3 Timeframe.h24).getD 0 default).point =
      ((processedData D3p Timeframe.h24).getD 1 default).point := by
    rw [processedData_getD D3 Timeframe.h24 (by decide) 0 (by decide),
      processedData_getD D3p Timeframe.h24 (by decide) 1 (by decide)]
    rw [filtered_D3_h24, filtered_D3p_h24]
    rfl
  exact metrics_permutation_and_linear.1 D3 D3p Timeframe.h24 Timeframe.h24 hperm
    _ hmem1 _ hmem2 hpoint
